import Mathlib

/-!
Shallow embedding of the Doc-Patient AI-Assistant pipeline
(src/scripts/transcribe.py and src/app.py), together with theorems
settling the specification claims about it.

Timestamps are modelled as rationals (the Python code compares and
averages floats; every claim is about ordering and exact halving, which
behave identically over ℚ for the inputs involved).  Strings are Lean
strings; Python str.strip() is modelled by String.trim (both remove the
ASCII whitespace the data at hand contains).
-/

namespace AIAssistant

/-! ## Data model (spec §3, realised by the dicts in the Python code) -/

structure SpeakerTurn where
  speaker : String
  start : ℚ
  end_ : ℚ
  deriving DecidableEq, Repr

structure WordToken where
  start : ℚ
  end_ : ℚ
  text : String
  deriving DecidableEq, Repr

structure TranscriptSegment where
  speaker : String
  start : ℚ
  end_ : ℚ
  text : String
  deriving DecidableEq, Repr

/-! ## Alignment engine — scripts/transcribe.py lines 35 and 67-90 -/

/-- `mid = (w["start"] + w["end"]) / 2.0` (transcribe.py line 76). -/
def mid (w : WordToken) : ℚ := (w.start + w.end_) / 2

/-- `s_start <= mid < s_end` (transcribe.py line 77). -/
def wordInTurn (t : SpeakerTurn) (w : WordToken) : Bool :=
  decide (t.start ≤ mid w) && decide (mid w < t.end_)

/-- `seg_words`: the texts of the words whose midpoint falls inside the
turn, in word order (transcribe.py lines 74-78). -/
def segWords (t : SpeakerTurn) (words : List WordToken) : List String :=
  (words.filter (fun w => wordInTurn t w)).map WordToken.text

/-- Python `s.strip()`: remove leading and trailing whitespace (the data
in play only ever contains ASCII whitespace). -/
def pyStrip (s : String) : String :=
  String.mk (((s.data.dropWhile Char.isWhitespace).reverse.dropWhile
      Char.isWhitespace).reverse)

/-- One iteration of the loop body for a diarization segment:
`continue` when `seg_words` is empty, otherwise append the segment with
`text = "".join(seg_words).strip()` (transcribe.py lines 80-90). -/
def emitTurn (t : SpeakerTurn) (words : List WordToken) : Option TranscriptSegment :=
  let sw := segWords t words
  if sw.isEmpty then none
  else some { speaker := t.speaker, start := t.start, end_ := t.end_,
              text := pyStrip (String.join sw) }

/-- The loop over the (already sorted) diarization segments building
`final_transcript` (transcribe.py lines 67-90). -/
def alignSorted (turns : List SpeakerTurn) (words : List WordToken) :
    List TranscriptSegment :=
  turns.filterMap (fun t => emitTurn t words)

/-- `diar_segments.sort(key=lambda s: s["start"])` (transcribe.py line 35):
Python list.sort is a stable sort on the key, modelled by mergeSort with
the non-strict key order. -/
def turnLE (a b : SpeakerTurn) : Bool := decide (a.start ≤ b.start)

def sortTurns (turns : List SpeakerTurn) : List SpeakerTurn :=
  turns.mergeSort turnLE

/-- The whole alignment pass: sort the turns, then assign words. -/
def align (turns : List SpeakerTurn) (words : List WordToken) :
    List TranscriptSegment :=
  alignSorted (sortTurns turns) words

/-! ## Transcription adapter flattening — transcribe.py lines 54-62.
`seg.words` may be None or a list; `if seg.words:` skips both None and
the empty list, then every word of the group is appended unconditionally. -/

def collectWords (segs : List (Option (List WordToken))) : List WordToken :=
  segs.foldl (fun acc seg =>
    match seg with
    | none => acc
    | some ws => if ws.isEmpty then acc else acc ++ ws) []

/-! ## Artifact paths — transcribe.py lines 18-20 -/

/-- Python `s.lstrip(chars)`: drop leading characters belonging to the
character set. -/
def lstripChars (s : String) (cs : List Char) : String :=
  String.mk (s.data.dropWhile (fun c => c ∈ cs))

def AUDIO_FILE (base_name : String) : String :=
  "audio/" ++ (base_name ++ ".wav")

def DIAR_FILE (base_name : String) : String :=
  "diarization/" ++ (base_name ++ ".json")

/-- `os.path.join("output", f"transcript{base_name.lstrip('input')}.json")`. -/
def OUTPUT_FILE (base_name : String) : String :=
  "output/" ++ ("transcript" ++ lstripChars base_name ['i','n','p','u','t'] ++ ".json")

/-! ## Format validation and the upload handler — src/app.py

The handler's effectful steps (ffmpeg conversion, ffprobe, the WAV copy,
pyannote diarization, the JSON dump) are black boxes whose outcomes are
supplied by an environment record; `upload` is the handler's control flow
over those outcomes, tracking the response, the HTTP status, whether
diarization ran, and the lifecycle of the two temporary files. -/

structure FFProbeInfo where
  codec_name : Option String
  channels : Option String
  sample_rate : Option String
  deriving DecidableEq, Repr

/-- Validation (app.py lines 189-193):
`info.get("codec_name") in ("pcm_s16le", "pcm_s16", "pcm_s16be") and
info.get("channels") == "1" and info.get("sample_rate") in ("16000", "16000.0")`. -/
def passes (info : FFProbeInfo) : Bool :=
  (info.codec_name == some "pcm_s16le" || info.codec_name == some "pcm_s16"
      || info.codec_name == some "pcm_s16be")
    && info.channels == some "1"
    && (info.sample_rate == some "16000" || info.sample_rate == some "16000.0")

/-- Validation as the claim words it, for comparison with `passes`: the
probed codec is 16-bit signed PCM little-endian, one channel, 16000 Hz. -/
def passesSpecWording (info : FFProbeInfo) : Bool :=
  info.codec_name == some "pcm_s16le" && info.channels == some "1"
    && info.sample_rate == some "16000"

/-- `re.sub(r"[^a-zA-Z0-9_-]", "_", original_name)` on one character. -/
def sanitizeChar (c : Char) : Char :=
  if c.isAlphanum || c = '_' || c = '-' then c else '_'

/-- `safe_base` (app.py line 146): sanitize, falling back to "audio" when
the result is empty. -/
def safe_base (original_name : String) : String :=
  let s := String.map sanitizeChar original_name
  if s.isEmpty then "audio" else s

/-- Root part of `os.path.splitext`: everything before the last dot, where
the leading dots of the name never start an extension. -/
def dropLastExt : List Char → Option (List Char)
  | [] => none
  | c :: rest =>
    match dropLastExt rest with
    | some r => some (c :: r)
    | none => if c = '.' then some [] else none

def splitextRoot (s : String) : String :=
  let lead := s.data.takeWhile (fun c => c = '.')
  let rest := s.data.dropWhile (fun c => c = '.')
  match dropLastExt rest with
  | some r => String.mk (lead ++ r)
  | none => s

inductive UploadResponse
  | noFileFieldAudio
  | emptyFilename
  | conversionFailed (detail : String)
  | ffprobeFailed (detail : String)
  | validationFailed (info : FFProbeInfo)
  | diarizationFailed (detail : String)
  | success (segments : List SpeakerTurn) (savedWav : Option String)
      (segmentsJson : Option String)
  deriving DecidableEq, Repr

/-- Outcomes of the handler's effectful collaborators for one request. -/
structure UploadEnv where
  hasAudioField : Bool
  filename : String
  conversion : Except String Unit
  probe : Except String FFProbeInfo
  wavCopy : Except String Unit
  diarization : Except String (List SpeakerTurn)
  jsonWrite : Except String Unit
  deriving Repr

structure UploadOutcome where
  status : Nat
  response : UploadResponse
  diarizationInvoked : Bool
  tmpInCreated : Bool
  tmpInDeleted : Bool
  outWavCreated : Bool
  outWavDeleted : Bool
  deriving DecidableEq, Repr

/-- The `/upload` handler (app.py lines 125-248).  The `finally` block
unlinks only `tmp_in`; no path ever unlinks the converted temporary WAV,
whose path is even included in the success response. -/
def upload (env : UploadEnv) : UploadOutcome :=
  if !env.hasAudioField then
    { status := 400, response := .noFileFieldAudio, diarizationInvoked := false,
      tmpInCreated := false, tmpInDeleted := false,
      outWavCreated := false, outWavDeleted := false }
  else if env.filename = "" then
    { status := 400, response := .emptyFilename, diarizationInvoked := false,
      tmpInCreated := false, tmpInDeleted := false,
      outWavCreated := false, outWavDeleted := false }
  else
    match env.conversion with
    | .error e =>
      { status := 500, response := .conversionFailed e, diarizationInvoked := false,
        tmpInCreated := true, tmpInDeleted := true,
        outWavCreated := false, outWavDeleted := false }
    | .ok _ =>
      match env.probe with
      | .error e =>
        { status := 500, response := .ffprobeFailed e, diarizationInvoked := false,
          tmpInCreated := true, tmpInDeleted := true,
          outWavCreated := true, outWavDeleted := false }
      | .ok info =>
        if !passes info then
          { status := 400, response := .validationFailed info, diarizationInvoked := false,
            tmpInCreated := true, tmpInDeleted := true,
            outWavCreated := true, outWavDeleted := false }
        else
          let base := safe_base (splitextRoot env.filename)
          let savedWav : Option String :=
            match env.wavCopy with
            | .ok _ => some ("audio/" ++ (base ++ ".wav"))
            | .error _ => none
          match env.diarization with
          | .error e =>
            { status := 500, response := .diarizationFailed e, diarizationInvoked := true,
              tmpInCreated := true, tmpInDeleted := true,
              outWavCreated := true, outWavDeleted := false }
          | .ok segments =>
            let segmentsJson : Option String :=
              match env.jsonWrite with
              | .ok _ => some ("diarization/" ++ (base ++ ".json"))
              | .error _ => none
            { status := 200, response := .success segments savedWav segmentsJson,
              diarizationInvoked := true,
              tmpInCreated := true, tmpInDeleted := true,
              outWavCreated := true, outWavDeleted := false }

/-! ## Helper lemmas about the alignment engine -/

/-- The segment built for a turn, when it is emitted. -/
def mkSegment (t : SpeakerTurn) (words : List WordToken) : TranscriptSegment :=
  { speaker := t.speaker, start := t.start, end_ := t.end_,
    text := pyStrip (String.join (segWords t words)) }

theorem emitTurn_eq (t : SpeakerTurn) (words : List WordToken) :
    emitTurn t words
      = if (segWords t words).isEmpty then none else some (mkSegment t words) := rfl

theorem alignSorted_eq_filter_map (turns : List SpeakerTurn) (words : List WordToken) :
    alignSorted turns words
      = (turns.filter (fun t => !(segWords t words).isEmpty)).map
          (fun t => mkSegment t words) := by
  induction turns with
  | nil => rfl
  | cons a l ih =>
    simp only [alignSorted] at ih ⊢
    rw [List.filterMap_cons, emitTurn_eq, List.filter_cons]
    by_cases h : (segWords a words).isEmpty
    · simp [h, ih]
    · simp [h, ih]

theorem mkSegment_mem_align (turns : List SpeakerTurn) (words : List WordToken)
    (t : SpeakerTurn) (ht : t ∈ turns) (hne : segWords t words ≠ []) :
    mkSegment t words ∈ align turns words := by
  rw [align, alignSorted_eq_filter_map]
  apply List.mem_map_of_mem
  rw [List.mem_filter]
  refine ⟨List.mem_mergeSort.mpr ht, ?_⟩
  simpa using hne

theorem turnLE_trans : ∀ (a b c : SpeakerTurn), turnLE a b → turnLE b c → turnLE a c := by
  intro a b c hab hbc
  simp only [turnLE, decide_eq_true_eq] at *
  exact le_trans hab hbc

theorem turnLE_total : ∀ (a b : SpeakerTurn), turnLE a b || turnLE b a := by
  intro a b
  simp only [turnLE, Bool.or_eq_true, decide_eq_true_eq]
  exact le_total _ _

/-! ## Claims about the alignment engine -/

/-- C1: a word is assigned to a turn iff
`turn.start_seconds <= (word.start_seconds + word.end_seconds)/2 < turn.end_seconds`;
for adjacent turns A = [a,b) and B = [b,c), a word with midpoint exactly b is
claimed by B (and B's segment is emitted, with the word's text among its
matched texts) and is never claimed by A. -/
theorem c1_half_open_assignment
    (t A B : SpeakerTurn) (w : WordToken) (words : List WordToken)
    (hw : w ∈ words) (hadj : A.end_ = B.start) (hmid : mid w = B.start)
    (hB : B.start < B.end_) :
    (wordInTurn t w = true ↔ (t.start ≤ mid w ∧ mid w < t.end_))
    ∧ w ∈ words.filter (fun x => wordInTurn B x)
    ∧ w.text ∈ segWords B words
    ∧ emitTurn B words ≠ none
    ∧ w ∉ words.filter (fun x => wordInTurn A x) := by
  have hBw : wordInTurn B w = true := by
    simp only [wordInTurn, Bool.and_eq_true, decide_eq_true_eq]
    exact ⟨hmid.ge, by rw [hmid]; exact hB⟩
  have hAw : wordInTurn A w = false := by
    have hnot : ¬ (mid w < A.end_) := by
      rw [hadj, hmid]
      exact lt_irrefl _
    simp only [wordInTurn, decide_eq_false hnot, Bool.and_false]
  have hmem : w ∈ words.filter (fun x => wordInTurn B x) :=
    List.mem_filter.mpr ⟨hw, hBw⟩
  have htext : w.text ∈ segWords B words := by
    rw [segWords]
    exact List.mem_map_of_mem _ hmem
  refine ⟨by simp [wordInTurn], hmem, htext, ?_, ?_⟩
  · rw [emitTurn_eq]
    have hne : segWords B words ≠ [] := List.ne_nil_of_mem htext
    simp [hne]
  · intro hc
    rw [List.mem_filter] at hc
    rw [hAw] at hc
    exact Bool.false_ne_true hc.2

/-- Witness for C1 at the spec's own test case: turns A = [0,2), B = [2,4),
word [1.9, 2.1] with midpoint exactly 2. -/
theorem c1_half_open_assignment_check :
    (wordInTurn ⟨"B",2,4⟩ ⟨19/10, 21/10, "x"⟩ = true
      ↔ ((⟨"B",2,4⟩ : SpeakerTurn).start ≤ mid ⟨19/10, 21/10, "x"⟩
          ∧ mid ⟨19/10, 21/10, "x"⟩ < (⟨"B",2,4⟩ : SpeakerTurn).end_))
    ∧ (⟨19/10, 21/10, "x"⟩ : WordToken)
        ∈ [(⟨19/10, 21/10, "x"⟩ : WordToken)].filter (fun x => wordInTurn ⟨"B",2,4⟩ x)
    ∧ (⟨19/10, 21/10, "x"⟩ : WordToken).text ∈ segWords ⟨"B",2,4⟩ [⟨19/10, 21/10, "x"⟩]
    ∧ emitTurn ⟨"B",2,4⟩ [⟨19/10, 21/10, "x"⟩] ≠ none
    ∧ (⟨19/10, 21/10, "x"⟩ : WordToken)
        ∉ [(⟨19/10, 21/10, "x"⟩ : WordToken)].filter (fun x => wordInTurn ⟨"A",0,2⟩ x) :=
  c1_half_open_assignment ⟨"B",2,4⟩ ⟨"A",0,2⟩ ⟨"B",2,4⟩ ⟨19/10, 21/10, "x"⟩
    [⟨19/10, 21/10, "x"⟩] (List.mem_singleton.mpr rfl) rfl (by norm_num [mid]) (by norm_num)

/-- C3 counterexample: a turn whose only matched word is the whitespace
token " " still emits a segment, with empty text — the code checks for
zero matched words before stripping, so the claim "every emitted segment
has non-empty text" is false. -/
theorem c3_whitespace_segment_emitted :
    align [⟨"S",0,2⟩] [⟨0,2," "⟩] = [⟨"S",0,2,""⟩]
    ∧ (⟨"S",0,2,""⟩ : TranscriptSegment).text = "" := by
  constructor
  · unfold align sortTurns
    rw [List.mergeSort_singleton]
    norm_num [alignSorted, emitTurn, segWords, wordInTurn, mid, pyStrip,
      List.filterMap_cons, List.filter_cons, String.join]
    rfl
  · rfl

/-- C3 amended: a turn is dropped from the output iff it matches zero
words (not iff its trimmed concatenation is empty); the output is exactly
the sorted turns with at least one matched word, each carrying the trimmed
concatenation of its matched texts — which may itself be empty. -/
theorem c3_empty_turn_elision_amended :
    (∀ (t : SpeakerTurn) (words : List WordToken),
        emitTurn t words = none ↔ words.filter (fun w => wordInTurn t w) = [])
    ∧ (∀ (turns : List SpeakerTurn) (words : List WordToken),
        align turns words
          = ((sortTurns turns).filter (fun t => !(segWords t words).isEmpty)).map
              (fun t => mkSegment t words)) := by
  constructor
  · intro t words
    rw [emitTurn_eq]
    by_cases h : (segWords t words).isEmpty
    · simp only [h, if_true, true_iff]
      rw [segWords] at h
      simpa using h
    · simp only [h, if_false]
      constructor
      · intro hc
        exact absurd hc (Option.some_ne_none _)
      · intro hc
        rw [segWords, hc] at h
        simp at h
  · intro turns words
    exact alignSorted_eq_filter_map _ _

/-- C4 counterexample: the adapter's guard `if seg.words:` skips empty
word groups, but a word token with empty text inside a nonempty group is
appended unchanged, so empty-text tokens do reach the flat word sequence. -/
theorem c4_empty_text_token_passes_through :
    collectWords [some [⟨0,1,""⟩]] = [⟨0,1,""⟩]
    ∧ (⟨0,1,""⟩ : WordToken).text = "" := ⟨rfl, rfl⟩

/-- C4 amended: the adapter merely flattens the per-group word lists (a
missing or empty group contributes nothing); it applies no per-word
empty-text filter. -/
theorem c4_flatten_amended (segs : List (Option (List WordToken))) :
    collectWords segs = (segs.map (fun o => o.getD [])).flatten := by
  suffices h : ∀ acc : List WordToken,
      segs.foldl (fun acc seg => match seg with
        | none => acc
        | some ws => if ws.isEmpty then acc else acc ++ ws) acc
        = acc ++ (segs.map (fun o => o.getD [])).flatten by
    simpa [collectWords] using h []
  induction segs with
  | nil =>
    intro acc
    simp
  | cons s l ih =>
    intro acc
    cases s with
    | none => simpa using ih acc
    | some ws =>
      by_cases hnil : ws = []
      · simpa [hnil] using ih acc
      · simpa [hnil] using ih (acc ++ ws)

/-- C5 counterexample: with overlapping turns [0,2) and [1,3) and a word
of midpoint 1.5 inside both, the word's text appears in both segments —
the word is claimed by every matching turn, not only the first. -/
theorem c5_overlap_double_claim :
    align [⟨"A",0,2⟩, ⟨"B",1,3⟩] [⟨1,2,"hi"⟩]
      = [⟨"A",0,2,"hi"⟩, ⟨"B",1,3,"hi"⟩] := by
  unfold align sortTurns
  rw [List.mergeSort_of_sorted (by norm_num [turnLE])]
  norm_num [alignSorted, emitTurn, segWords, wordInTurn, mid, pyStrip,
    List.filterMap_cons, List.filter_cons, String.join]
  rfl

/-- C5 amended: the loop never consumes words, so every turn whose
half-open interval contains a word's midpoint claims that word, and each
such turn's segment (containing the word's text among its matched texts)
is emitted — overlapping turns duplicate the word instead of the first
turn claiming it exclusively. -/
theorem c5_every_matching_turn_claims
    (turns : List SpeakerTurn) (words : List WordToken)
    (t : SpeakerTurn) (w : WordToken)
    (ht : t ∈ turns) (hw : w ∈ words) (hcl : wordInTurn t w = true) :
    w.text ∈ segWords t words ∧ mkSegment t words ∈ align turns words := by
  have htext : w.text ∈ segWords t words := by
    rw [segWords]
    exact List.mem_map_of_mem _ (List.mem_filter.mpr ⟨hw, hcl⟩)
  exact ⟨htext, mkSegment_mem_align _ _ _ ht (List.ne_nil_of_mem htext)⟩

/-- Witness for C5 amended at the overlapping-turn counterexample input,
for the second (overlapping) turn. -/
theorem c5_every_matching_turn_claims_check :
    ("hi" : String) ∈ segWords ⟨"B",1,3⟩ [⟨1,2,"hi"⟩]
    ∧ mkSegment ⟨"B",1,3⟩ [⟨1,2,"hi"⟩]
        ∈ align [⟨"A",0,2⟩, ⟨"B",1,3⟩] [⟨1,2,"hi"⟩] :=
  c5_every_matching_turn_claims [⟨"A",0,2⟩, ⟨"B",1,3⟩] [⟨1,2,"hi"⟩]
    ⟨"B",1,3⟩ ⟨1,2,"hi"⟩ (by simp) (List.mem_singleton.mpr rfl)
    (by simp only [wordInTurn, Bool.and_eq_true, decide_eq_true_eq, mid]; norm_num)

/-- C7: a word whose midpoint lies in no turn's half-open interval is
silently dropped — removing it from the word list leaves the alignment
output unchanged, and alignment is a total function (no error). -/
theorem c7_gap_word_dropped
    (turns : List SpeakerTurn) (l1 l2 : List WordToken) (w : WordToken)
    (h : ∀ t ∈ turns, wordInTurn t w = false) :
    align turns (l1 ++ w :: l2) = align turns (l1 ++ l2) := by
  unfold align alignSorted
  apply List.filterMap_congr
  intro t ht
  have hw : wordInTurn t w = false := h t (List.mem_mergeSort.mp ht)
  simp [emitTurn, segWords, List.filter_append, List.filter_cons, hw]

/-- Witness for C7: one turn [0,2), word "a" inside it, and a gap word
with midpoint 2.5 outside every turn. -/
theorem c7_gap_word_dropped_check :
    align [⟨"A",0,2⟩] ([⟨0,1,"a"⟩] ++ ⟨2,3,"x"⟩ :: [])
      = align [⟨"A",0,2⟩] ([⟨0,1,"a"⟩] ++ []) :=
  c7_gap_word_dropped [⟨"A",0,2⟩] [⟨0,1,"a"⟩] [] ⟨2,3,"x"⟩ (by
    intro t ht
    rw [List.mem_singleton] at ht
    subst ht
    simp only [wordInTurn, mid]
    norm_num)

/-- C6: the output is exactly the filter-map of the turns stably sorted
ascending on start_seconds: output starts are ascending, a pair already in
⟨-order (ties included) keeps its relative order through the sort, and two
inputs with the same sorted order yield identical output. -/
theorem c6_sorted_stable_order :
    (∀ (turns : List SpeakerTurn) (words : List WordToken),
        ((align turns words).map TranscriptSegment.start).Pairwise (· ≤ ·))
    ∧ (∀ (turns : List SpeakerTurn) (a b : SpeakerTurn),
        turnLE a b = true → List.Sublist [a, b] turns
          → List.Sublist [a, b] (sortTurns turns))
    ∧ (∀ (t1 t2 : List SpeakerTurn) (words : List WordToken),
        sortTurns t1 = sortTurns t2 → align t1 words = align t2 words) := by
  refine ⟨?_, ?_, ?_⟩
  · intro turns words
    have hs : (sortTurns turns).Pairwise (fun a b => turnLE a b = true) := by
      simpa [sortTurns] using List.sorted_mergeSort turnLE_trans turnLE_total turns
    rw [align, alignSorted_eq_filter_map, List.map_map]
    refine List.Pairwise.map _ ?_ (hs.filter _)
    intro a b hab
    simpa [turnLE, mkSegment] using hab
  · intro turns a b hle hsub
    exact List.pair_sublist_mergeSort turnLE_trans turnLE_total hle hsub
  · intro t1 t2 words h
    rw [align, h]
    rfl

/-- Witness for C6 at concrete inputs: unsorted turns, a tie kept in
order, and an input compared with itself. -/
theorem c6_sorted_stable_order_check :
    ((align [⟨"S",2,4⟩, ⟨"S",0,2⟩] [⟨0,2,"a"⟩]).map TranscriptSegment.start).Pairwise (· ≤ ·)
    ∧ List.Sublist [(⟨"S",1,2⟩ : SpeakerTurn), ⟨"S",1,3⟩]
        (sortTurns [⟨"S",1,2⟩, ⟨"S",1,3⟩])
    ∧ align [⟨"S",2,4⟩] [] = align [⟨"S",2,4⟩] [] :=
  ⟨c6_sorted_stable_order.1 _ _,
   c6_sorted_stable_order.2.1 _ _ _ (by norm_num [turnLE]) (List.Sublist.refl _),
   c6_sorted_stable_order.2.2 _ _ _ rfl⟩

/-- C2 counterexample: a probe reporting big-endian 16-bit PCM on one
channel at 16000 Hz passes the code's validation although the codec is not
little-endian, so "passes is true iff the codec is 16-bit signed PCM
little-endian, …" is false of the code. -/
theorem c2_big_endian_passes :
    passes ⟨some "pcm_s16be", some "1", some "16000"⟩ = true
    ∧ passesSpecWording ⟨some "pcm_s16be", some "1", some "16000"⟩ = false
    ∧ (⟨some "pcm_s16be", some "1", some "16000"⟩ : FFProbeInfo).codec_name
        ≠ some "pcm_s16le" := by
  refine ⟨by decide, by decide, by decide⟩

/-- C2 amended: `passes` is true iff the probed codec is one of pcm_s16le,
pcm_s16, pcm_s16be, the channel string is "1", and the sample-rate string
is "16000" or "16000.0"; and whenever `passes` is false the request
returns the distinct validation_failed error with status 400 and
diarization is never invoked. -/
theorem c2_validation_gate_amended :
    (∀ info : FFProbeInfo,
        passes info = true ↔
          ((info.codec_name = some "pcm_s16le" ∨ info.codec_name = some "pcm_s16"
              ∨ info.codec_name = some "pcm_s16be")
            ∧ info.channels = some "1"
            ∧ (info.sample_rate = some "16000" ∨ info.sample_rate = some "16000.0")))
    ∧ (∀ (env : UploadEnv) (info : FFProbeInfo),
        env.hasAudioField = true → env.filename ≠ "" → env.conversion = .ok ()
          → env.probe = .ok info → passes info = false →
          (upload env).status = 400
          ∧ (upload env).response = UploadResponse.validationFailed info
          ∧ (upload env).diarizationInvoked = false) := by
  constructor
  · intro info
    simp [passes, and_assoc, or_assoc]
  · intro env info h1 h2 h3 h4 h5
    simp [upload, h1, h2, h3, h4, h5]

/-- Witness for C2 amended, on the spec's validation-gate test: a
two-channel little-endian PCM probe fails validation, yields 400 with the
validation_failed response, and never reaches diarization. -/
theorem c2_validation_gate_check :
    (upload ⟨true, "a.mp3", .ok (), .ok ⟨some "pcm_s16le", some "2", some "16000"⟩,
        .ok (), .ok [], .ok ()⟩).status = 400
    ∧ (upload ⟨true, "a.mp3", .ok (), .ok ⟨some "pcm_s16le", some "2", some "16000"⟩,
        .ok (), .ok [], .ok ()⟩).response
        = UploadResponse.validationFailed ⟨some "pcm_s16le", some "2", some "16000"⟩
    ∧ (upload ⟨true, "a.mp3", .ok (), .ok ⟨some "pcm_s16le", some "2", some "16000"⟩,
        .ok (), .ok [], .ok ()⟩).diarizationInvoked = false :=
  c2_validation_gate_amended.2
    ⟨true, "a.mp3", .ok (), .ok ⟨some "pcm_s16le", some "2", some "16000"⟩,
      .ok (), .ok [], .ok ()⟩
    ⟨some "pcm_s16le", some "2", some "16000"⟩
    rfl (by decide) rfl rfl (by decide)

/-- C8: when diarization succeeded but writing the segments JSON artifact
fails, the upload request still returns status 200 with the computed
segments; the persistence failure is reported only by a null
segments_json path. -/
theorem c8_persistence_failure_returns_result
    (env : UploadEnv) (info : FFProbeInfo) (segs : List SpeakerTurn) (e : String)
    (h1 : env.hasAudioField = true) (h2 : env.filename ≠ "")
    (h3 : env.conversion = .ok ()) (h4 : env.probe = .ok info)
    (h5 : passes info = true) (h6 : env.diarization = .ok segs)
    (h7 : env.jsonWrite = .error e) :
    (upload env).status = 200
    ∧ ∃ savedWav, (upload env).response = UploadResponse.success segs savedWav none := by
  cases hwc : env.wavCopy with
  | error e2 => simp [upload, h1, h2, h3, h4, h5, h6, h7, hwc]
  | ok u => simp [upload, h1, h2, h3, h4, h5, h6, h7, hwc]

/-- Witness for C8: every stage succeeds except the JSON dump. -/
theorem c8_persistence_failure_check :
    (upload ⟨true, "a.mp3", .ok (), .ok ⟨some "pcm_s16le", some "1", some "16000"⟩,
        .ok (), .ok [⟨"S", 0, 1⟩], .error "disk full"⟩).status = 200
    ∧ ∃ savedWav,
        (upload ⟨true, "a.mp3", .ok (), .ok ⟨some "pcm_s16le", some "1", some "16000"⟩,
            .ok (), .ok [⟨"S", 0, 1⟩], .error "disk full"⟩).response
          = UploadResponse.success [⟨"S", 0, 1⟩] savedWav none :=
  c8_persistence_failure_returns_result
    ⟨true, "a.mp3", .ok (), .ok ⟨some "pcm_s16le", some "1", some "16000"⟩,
      .ok (), .ok [⟨"S", 0, 1⟩], .error "disk full"⟩
    ⟨some "pcm_s16le", some "1", some "16000"⟩ [⟨"S", 0, 1⟩] "disk full"
    rfl (by decide) rfl rfl (by decide) rfl rfl

/-- C9: the handler's finally block deletes only the uploaded temp file;
the converted temporary WAV is created and never deleted — here on a fully
successful request, and likewise on the validation-failure exit — so the
every-exit-path cleanup the spec requires does not hold of the code. -/
theorem c9_converted_wav_leaked :
    ((upload ⟨true, "a.mp3", .ok (), .ok ⟨some "pcm_s16le", some "1", some "16000"⟩,
        .ok (), .ok [], .ok ()⟩).status = 200
      ∧ (upload ⟨true, "a.mp3", .ok (), .ok ⟨some "pcm_s16le", some "1", some "16000"⟩,
          .ok (), .ok [], .ok ()⟩).tmpInDeleted = true
      ∧ (upload ⟨true, "a.mp3", .ok (), .ok ⟨some "pcm_s16le", some "1", some "16000"⟩,
          .ok (), .ok [], .ok ()⟩).outWavCreated = true
      ∧ (upload ⟨true, "a.mp3", .ok (), .ok ⟨some "pcm_s16le", some "1", some "16000"⟩,
          .ok (), .ok [], .ok ()⟩).outWavDeleted = false)
    ∧ ((upload ⟨true, "a.mp3", .ok (), .ok ⟨some "pcm_s16le", some "2", some "16000"⟩,
        .ok (), .ok [], .ok ()⟩).outWavCreated = true
      ∧ (upload ⟨true, "a.mp3", .ok (), .ok ⟨some "pcm_s16le", some "2", some "16000"⟩,
          .ok (), .ok [], .ok ()⟩).outWavDeleted = false) := by
  refine ⟨⟨by decide, by decide, by decide, by decide⟩, by decide, by decide⟩

/-- C10: `base_name.lstrip('input')` strips every leading character drawn
from {i,n,p,u,t}, so distinct base names "input1" and "tn1" map to the
same transcript artifact path output/transcript1.json. -/
theorem c10_lstrip_collision :
    OUTPUT_FILE "input1" = "output/transcript1.json"
    ∧ OUTPUT_FILE "tn1" = "output/transcript1.json"
    ∧ ("input1" : String) ≠ "tn1" := by
  refine ⟨by decide, by decide, by decide⟩

end AIAssistant
